import Mathlib

/-!
Verification of the two-stage research pipeline and its streaming adapter
(backend/main.py).  The Python source is shallowly embedded: the two stage
functions (`research_node`, `writer_node`), the state merge induced by the
`AgentState` channel declarations, the linear graph traversal, and the SSE
`event_generator` are translated into executable Lean definitions, and the
specified properties are proved about those definitions.

External capabilities (the Tavily search tool and the Groq LLM) are modelled
as optional call oracles `Option (String → Except String α)`: `none` means the
handle was never initialized, `Except.error e` a call that raised with message
`e`, and `Except.ok v` a successful call returning `v`.  An unexpected fault
inside the orchestration loop is modelled by an optional pair: the number of
stage updates streamed before the fault, and the stringified error.
-/

/-- Search result record as returned by the search capability, per the
external interface (an ordered list of title/url/snippet records). -/
structure SearchRecord where
  title : String
  url : String
  snippet : String
deriving Repr, DecidableEq

/-- Cumulative run state: `topic`, append-only `logs`, `search_data` and
`final_report`, embedding the `AgentState` TypedDict of the source. -/
structure AgentState where
  topic : String
  logs : List String
  search_data : String
  final_report : String
deriving Repr, DecidableEq

/-- Partial update returned by one stage: only the dictionary keys the stage
actually returned are present (`none` models an absent key). -/
structure StageUpdate where
  logs : Option (List String) := none
  search_data : Option String := none
  final_report : Option String := none
deriving Repr, DecidableEq

/-- Hex digit character (lowercase), used by the JSON unicode escapes. -/
def hexDigit (n : Nat) : Char :=
  if n < 10 then Char.ofNat (48 + n) else Char.ofNat (87 + n)

/-- Four-digit lowercase hex rendering of a code unit, as in `\uXXXX`. -/
def hex4 (n : Nat) : String :=
  String.mk [hexDigit (n / 4096 % 16), hexDigit (n / 256 % 16), hexDigit (n / 16 % 16), hexDigit (n % 16)]

/-- Escape of one character as performed by Python `json.dumps` inside a
string literal; `ensureAscii` selects the default ASCII-escaping mode. -/
def pyJsonEscapeChar (ensureAscii : Bool) (c : Char) : String :=
  if c = Char.ofNat 34 then "\\\""
  else if c = Char.ofNat 92 then "\\\\"
  else if c = Char.ofNat 10 then "\\n"
  else if c = Char.ofNat 13 then "\\r"
  else if c = Char.ofNat 9 then "\\t"
  else if c = Char.ofNat 8 then "\\b"
  else if c = Char.ofNat 12 then "\\f"
  else if c.toNat < 32 then "\\u" ++ hex4 c.toNat
  else if ensureAscii && 126 < c.toNat then
    if c.toNat ≤ 65535 then "\\u" ++ hex4 c.toNat
    else "\\u" ++ hex4 (55296 + (c.toNat - 65536) / 1024) ++ "\\u" ++ hex4 (56320 + (c.toNat - 65536) % 1024)
  else String.singleton c

/-- Python `json.dumps` of a string value. -/
def pyJsonStr (ensureAscii : Bool) (s : String) : String :=
  "\"" ++ String.join (s.data.map (pyJsonEscapeChar ensureAscii)) ++ "\""

/-- Separator between JSON object members, matching the `json.dumps` default. -/
def jsonComma : String := ", "

/-- Python `json.dumps` of one search result record (`ensure_ascii=False`,
as on the `search_data` serialization line of `research_node`). -/
def pyJsonDumpsRecord (r : SearchRecord) : String :=
  "\x7b\"title\": " ++ pyJsonStr false r.title ++ ", \"url\": " ++ pyJsonStr false r.url ++ ", \"snippet\": " ++ pyJsonStr false r.snippet ++ "\x7d"

/-- Python `json.dumps` of the full result list (`ensure_ascii=False`). -/
def pyJsonDumpsRecords (rs : List SearchRecord) : String :=
  "[" ++ String.intercalate jsonComma (rs.map pyJsonDumpsRecord) ++ "]"

/-- Error log produced when the search tool handle is `None`. -/
def searchUnavailableLog : String := "❌ Error: Search tool not initialized (check TAVILY_API_KEY)"

/-- Sentinel `search_data` value when the search tool handle is `None`. -/
def searchUnavailableSentinel : String := "No search data (tool failure)"

/-- Start-of-search log line of the research stage. -/
def researchStartLog (topic : String) : String :=
  "🕵️ Researcher: Searching Tavily for \x27" ++ topic ++ "\x27..."

/-- Log line the research stage produces when the search call raised,
overwriting the start-of-search line (`log_start` is reassigned). -/
def searchErrorLog (e : String) : String := "⚠️ Search Error: " ++ e

/-- Sentinel `search_data` value when the search call raised. -/
def searchFailedData (e : String) : String := "Search Failed: " ++ e

/-- Unconditional final log line of the research stage (`log_end`). -/
def researchDoneLog : String := "✅ Researcher: Latest data retrieved."

/-- Research stage, embedding `research_node`: a `None` search tool yields one
error log and the unavailable sentinel; otherwise the tool is invoked with the
topic, success serializes the results, and an exception replaces `log_start`
with the error log and sets the failure sentinel; `log_end` is appended in
both of those branches. -/
def research_node (search_tool : Option (String → Except String (List SearchRecord))) (state : AgentState) : StageUpdate :=
  let topic := state.topic
  match search_tool with
  | none =>
      { logs := some [searchUnavailableLog]
        search_data := some searchUnavailableSentinel }
  | some invoke =>
      match invoke topic with
      | Except.ok search_results =>
          { logs := some [researchStartLog topic, researchDoneLog]
            search_data := some (pyJsonDumpsRecords search_results) }
      | Except.error e =>
          { logs := some [searchErrorLog e, researchDoneLog]
            search_data := some (searchFailedData e) }

/-- Error log produced when the LLM handle is `None`. -/
def writerFatalLog : String := "❌ Fatal Error: LLM is not running"

/-- Fixed misconfiguration report body returned when the LLM handle is
`None`. -/
def misconfigReport : String :=
  "## System Error\nCannot generate report because LLM initialization failed.\n\nPlease check backend console logs to confirm `GROQ_API_KEY` is set correctly."

/-- Start log line of the writer stage. -/
def writerStartLog : String := "✍️ Writer: Llama 3.3 is drafting the report..."

/-- Unconditional final log line of the writer stage. -/
def writerDoneLog : String := "✅ Writer: Report generated."

/-- Report body substituted when the LLM call raised with message `e`. -/
def llmFailedReport (e : String) : String := "❌ LLM Call Failed: " ++ e

/-- Prompt the writer stage builds, embedding the f-string of the source with
`topic` and `search_data` interpolated. -/
def writer_prompt (topic search_data : String) : String :=
  "\n    You are a senior technical analyst. Please write a briefing on \"" ++ topic ++ "\" based on the provided online search results.\n\n    【Search Result Data】:\n    " ++ search_data ++ "\n\n    【Requirements】:\n    1. Use Markdown format.\n    2. Cite specific data or sources from the search results.\n    3. Clear structure: Title, Executive Summary, Key Findings, Conclusion.\n    4. Professional and objective tone.\n    "

/-- Writer stage with an invocation counter, embedding `writer_node`: the
second component counts how many times the generation capability is called on
this invocation (the source has exactly one call site, inside the guarded
branch). -/
def writer_nodeC (llm : Option (String → Except String String)) (state : AgentState) : StageUpdate × Nat :=
  match llm with
  | none =>
      ({ logs := some [writerFatalLog]
         final_report := some misconfigReport }, 0)
  | some ainvoke =>
      let prompt := writer_prompt state.topic state.search_data
      let report_content :=
        match ainvoke prompt with
        | Except.ok response => response
        | Except.error e => llmFailedReport e
      ({ logs := some [writerStartLog, writerDoneLog]
         final_report := some report_content }, 1)

/-- Writer stage, the update component of `writer_nodeC`. -/
def writer_node (llm : Option (String → Except String String)) (state : AgentState) : StageUpdate :=
  (writer_nodeC llm state).1

/-- Merge of a stage update into the running state, as induced by the
`AgentState` channel declarations: `logs` is `Annotated[List[str], operator.add]`
so present log lists are appended, and the other fields are last-value
channels overwritten only when the update carries the key. -/
def mergeUpdate (s : AgentState) (u : StageUpdate) : AgentState :=
  { topic := s.topic
    logs := s.logs ++ u.logs.getD []
    search_data := u.search_data.getD s.search_data
    final_report := u.final_report.getD s.final_report }

/-- Initial state built by the endpoint: all fields present, empty defaults. -/
def initialState (topic : String) : AgentState :=
  { topic := topic, logs := [], search_data := "", final_report := "" }

/-- Stream key of the research node in the graph. -/
def researcherKey : String := "researcher"

/-- Stream key of the writer node in the graph. -/
def writerKey : String := "writer"

/-- Linear graph traversal, embedding `app_graph.astream`: the fixed chain
entry → researcher → writer → END yields one keyed update per completed node,
the writer running on the state obtained by merging the researcher update. -/
def pipeline (search_tool : Option (String → Except String (List SearchRecord)))
    (llm : Option (String → Except String String)) (inputs : AgentState) :
    List (String × StageUpdate) :=
  let u1 := research_node search_tool inputs
  let s1 := mergeUpdate inputs u1
  let u2 := writer_node llm s1
  [(researcherKey, u1), (writerKey, u2)]

/-- Transport event of the outbound stream: a log line, the report, or the
terminal sentinel. -/
inductive TransportEvent where
  | log (content : String)
  | report (content : String)
  | done
deriving Repr, DecidableEq

/-- Observable action of the stream generator: yielding an event, or the
100ms pacing pause (`asyncio.sleep(0.1)`). -/
inductive StreamAct where
  | emit (e : TransportEvent)
  | sleep
deriving Repr, DecidableEq

/-- Actions of the log loop of the generator: each log entry is yielded as a
log event followed by the pacing pause. -/
def logChunk (ls : List String) : List StreamAct :=
  ls.flatMap (fun log => [StreamAct.emit (TransportEvent.log log), StreamAct.sleep])

/-- Actions of the log loop for an optional `logs` key: nothing when the key
is absent, the paced log emissions when present. -/
def logsActs (lo : Option (List String)) : List StreamAct :=
  match lo with
  | some logs => logChunk logs
  | none => []

/-- Actions of the report branch for an optional `final_report` key: one
report emission when the key is present and the value is truthy (non-empty). -/
def reportActs (fr : Option String) : List StreamAct :=
  match fr with
  | some r => if r ≠ "" then [StreamAct.emit (TransportEvent.report r)] else []
  | none => []

/-- Actions the generator performs for one keyed stage update: if the `logs`
key is present, each entry is yielded as a log event followed by the pacing
pause; then if the `final_report` key is present and the value is truthy
(non-empty), one report event is yielded. -/
def updateActions (value : StageUpdate) : List StreamAct :=
  logsActs value.logs ++ reportActs value.final_report

/-- Log content yielded when the orchestration loop raised with message `e`. -/
def sysErrorLog (e : String) : String := "System Error: " ++ e

/-- Stream generator, embedding `event_generator`: the graph updates are
consumed in order and turned into actions; an orchestration fault after
`fault.1` streamed updates truncates the loop and yields one log event with
the stringified error; in every case the final action emits the `done`
sentinel. -/
def event_generator (search_tool : Option (String → Except String (List SearchRecord)))
    (llm : Option (String → Except String String)) (topic : String)
    (fault : Option (Nat × String)) : List StreamAct :=
  let inputs := initialState topic
  let updates := pipeline search_tool llm inputs
  match fault with
  | none =>
      updates.flatMap (fun kv => updateActions kv.2) ++ [StreamAct.emit TransportEvent.done]
  | some fe =>
      (updates.take fe.1).flatMap (fun kv => updateActions kv.2) ++
        [StreamAct.emit (TransportEvent.log (sysErrorLog fe.2)), StreamAct.emit TransportEvent.done]

/-- Event carried by an action, if any. -/
def emittedEvent : StreamAct → Option TransportEvent
  | StreamAct.emit e => some e
  | StreamAct.sleep => none

/-- Sequence of transport events of a run, the pacing pauses erased. -/
def stream_events (search_tool : Option (String → Except String (List SearchRecord)))
    (llm : Option (String → Except String String)) (topic : String)
    (fault : Option (Nat × String)) : List TransportEvent :=
  (event_generator search_tool llm topic fault).filterMap emittedEvent

/-- SSE line head. -/
def dataMark : String := "data: "

/-- SSE unit terminator. -/
def lineEnd : String := "\n\n"

/-- Type tag of log payloads. -/
def typeLog : String := "log"

/-- Type tag of report payloads. -/
def typeReport : String := "report"

/-- JSON payload of one event, embedding
`json.dumps(\x7b'type': t, 'content': c\x7d)` with its default separators and
`ensure_ascii` mode. -/
def eventPayload (t c : String) : String :=
  "\x7b\"type\": " ++ pyJsonStr true t ++ ", \"content\": " ++ pyJsonStr true c ++ "\x7d"

/-- Literal final stream line. -/
def doneLine : String := "data: [DONE]\n\n"

/-- Wire rendering of one transport event. -/
def renderEvent : TransportEvent → String
  | TransportEvent.log c => dataMark ++ eventPayload typeLog c ++ lineEnd
  | TransportEvent.report c => dataMark ++ eventPayload typeReport c ++ lineEnd
  | TransportEvent.done => doneLine

/-- Wire units of a run, in emission order. -/
def stream_wire (search_tool : Option (String → Except String (List SearchRecord)))
    (llm : Option (String → Except String String)) (topic : String)
    (fault : Option (Nat × String)) : List String :=
  (stream_events search_tool llm topic fault).map renderEvent

/-- Events of the actions of one keyed update, pacing pauses erased. -/
def updateEvents (u : StageUpdate) : List TransportEvent :=
  (updateActions u).filterMap emittedEvent

/-- Report events of one update: one report event when the `final_report` key
is present with truthy content, none otherwise. -/
def reportEvents (u : StageUpdate) : List TransportEvent :=
  match u.final_report with
  | some r => if r ≠ "" then [TransportEvent.report r] else []
  | none => []

/-- Concrete topic used in the scenario instances. -/
def tqTopic : String := "quantum computing"

/-- Concrete search result record used in the scenario instances. -/
def oneRecord : SearchRecord := { title := "A", url := "u1", snippet := "s1" }

/-- Search oracle whose call succeeds with one fixed record. -/
def okSearchOracle : Option (String → Except String (List SearchRecord)) :=
  some (fun _ => Except.ok [oneRecord])

/-- Generation oracle whose call succeeds but returns empty text. -/
def emptyGenOracle : Option (String → Except String String) :=
  some (fun _ => Except.ok "")

/-- Concrete report text used in the scenario instances. -/
def repText : String := "## Report"

/-- Generation oracle whose call succeeds with the fixed report text. -/
def okGenOracle : Option (String → Except String String) :=
  some (fun _ => Except.ok repText)

/-- Concrete run state used when exercising the writer stage alone. -/
def exampleState : AgentState :=
  { topic := tqTopic, logs := [], search_data := "[]", final_report := "" }

/-- Concrete provider error message used in the failure scenarios. -/
def timeoutMsg : String := "timeout"

/-- Recognizer of report events. -/
def isReportEvent : TransportEvent → Bool
  | TransportEvent.report _ => true
  | _ => false

/-- Adjacency relation stating that a pause is legitimate only directly after
a log emission. -/
def sleepAfterLog (x y : StreamAct) : Prop :=
  y = StreamAct.sleep → ∃ c, x = StreamAct.emit (TransportEvent.log c)

/-- Adjacency relation stating that every log emission is directly followed
by a pause. -/
def logThenSleep (x y : StreamAct) : Prop :=
  (∃ c, x = StreamAct.emit (TransportEvent.log c)) → y = StreamAct.sleep

theorem filterMap_logChunk (ls : List String) :
    (logChunk ls).filterMap emittedEvent = ls.map TransportEvent.log := by
  unfold logChunk
  induction ls with
  | nil => rfl
  | cons l ls ih => simp [List.flatMap_cons, List.filterMap_append, emittedEvent, ih]

theorem updateEvents_eq (u : StageUpdate) :
    updateEvents u = (u.logs.getD []).map TransportEvent.log ++ reportEvents u := by
  cases u with
  | mk logs sd fr =>
    cases logs <;> rcases fr with _ | r
    case none.none | some.none =>
      simp [updateEvents, updateActions, logsActs, reportActs, reportEvents,
        filterMap_logChunk, List.filterMap_append, emittedEvent]
    all_goals
      by_cases hr : r ≠ "" <;>
        simp [updateEvents, updateActions, logsActs, reportActs, reportEvents,
          filterMap_logChunk, List.filterMap_append, emittedEvent, hr]

theorem done_not_mem_updateEvents (u : StageUpdate) :
    TransportEvent.done ∉ updateEvents u := by
  rw [updateEvents_eq]
  intro h
  rcases List.mem_append.mp h with h | h
  · rcases List.mem_map.mp h with ⟨c, _, hc⟩
    exact TransportEvent.noConfusion hc
  · unfold reportEvents at h
    rcases hfr : u.final_report with _ | r <;> rw [hfr] at h
    · exact List.not_mem_nil _ h
    · by_cases hr : r ≠ "" <;> simp [hr] at h

theorem mem_updateEvents_shape (u : StageUpdate) (e : TransportEvent)
    (he : e ∈ updateEvents u) :
    (∃ c, e = TransportEvent.log c) ∨ ∃ c, e = TransportEvent.report c := by
  rw [updateEvents_eq] at he
  rcases List.mem_append.mp he with h | h
  · rcases List.mem_map.mp h with ⟨c, _, hc⟩
    exact Or.inl ⟨c, hc.symm⟩
  · unfold reportEvents at h
    rcases hfr : u.final_report with _ | r <;> rw [hfr] at h
    · exact absurd h (List.not_mem_nil _)
    · by_cases hr : r ≠ "" <;> simp [hr] at h
      exact Or.inr ⟨r, h⟩

theorem stream_events_none (st : Option (String → Except String (List SearchRecord)))
    (llm : Option (String → Except String String)) (topic : String) :
    stream_events st llm topic none =
      updateEvents (research_node st (initialState topic)) ++
      updateEvents (writer_node llm (mergeUpdate (initialState topic) (research_node st (initialState topic)))) ++
      [TransportEvent.done] := by
  simp [stream_events, event_generator, pipeline, updateEvents,
    List.filterMap_append, emittedEvent]

theorem stream_events_fault (st : Option (String → Except String (List SearchRecord)))
    (llm : Option (String → Except String String)) (topic e : String) (k : Nat) :
    stream_events st llm topic (some (k, e)) =
      ((pipeline st llm (initialState topic)).take k).flatMap (fun kv => updateEvents kv.2) ++
      [TransportEvent.log (sysErrorLog e), TransportEvent.done] := by
  rcases k with _ | _ | k <;>
    simp [stream_events, event_generator, pipeline, updateEvents,
      List.filterMap_append, emittedEvent]

/-- C3: when the search call raises with message `e`, the research stage
returns normally with `search_data` equal to the sentinel `Search Failed: e`,
the merged state carries exactly that sentinel, and the pipeline still runs
the writer stage on it — with a successful generator `g`, the writer receives
the prompt embedding the sentinel. -/
theorem c3_search_failure_isolated (topic e : String)
    (llm : Option (String → Except String String)) (g : String → String) :
    (research_node (some (fun _ => Except.error e)) (initialState topic)).search_data
        = some (searchFailedData e) ∧
    searchFailedData e = "Search Failed: " ++ e ∧
    (mergeUpdate (initialState topic) (research_node (some (fun _ => Except.error e)) (initialState topic))).search_data
        = searchFailedData e ∧
    pipeline (some (fun _ => Except.error e)) llm (initialState topic)
        = [(researcherKey, research_node (some (fun _ => Except.error e)) (initialState topic)),
           (writerKey, writer_node llm (mergeUpdate (initialState topic)
              (research_node (some (fun _ => Except.error e)) (initialState topic))))] ∧
    writer_nodeC (some (fun p => Except.ok (g p)))
        (mergeUpdate (initialState topic) (research_node (some (fun _ => Except.error e)) (initialState topic)))
        = ({ logs := some [writerStartLog, writerDoneLog]
             final_report := some (g (writer_prompt topic (searchFailedData e))) }, 1) :=
  ⟨rfl, rfl, rfl, rfl, rfl⟩

/-- C6: with the search tool handle never initialized, the research stage
returns exactly one error log and the fixed unavailable sentinel without
raising, the traversal still visits the writer stage, and the generator ends
with the done sentinel. -/
theorem c6_search_unavailable (topic : String)
    (llm : Option (String → Except String String)) :
    research_node none (initialState topic)
        = { logs := some [searchUnavailableLog]
            search_data := some searchUnavailableSentinel } ∧
    (pipeline none llm (initialState topic)).map Prod.fst = [researcherKey, writerKey] ∧
    ∃ pre, event_generator none llm topic none = pre ++ [StreamAct.emit TransportEvent.done] :=
  ⟨rfl, rfl, ⟨_, rfl⟩⟩

/-- C7: with the LLM handle never initialized, the writer stage returns the
fixed misconfiguration report body plus the single fatal error log, and the
generation capability is invoked zero times. -/
theorem c7_llm_unavailable (state : AgentState) :
    writer_nodeC none state
        = ({ logs := some [writerFatalLog], final_report := some misconfigReport }, 0) :=
  rfl

/-- C8: merging a stage update is additive on `logs` and
replacing-by-presence elsewhere — an update with empty (or absent) `logs`
leaves the log count unchanged, a carried `search_data` overwrites the prior
value exactly once, an absent field never erases a previously set value, and
the merged `logs` are the old logs extended by the update logs in order. -/
theorem c8_merge_semantics (s : AgentState) (u : StageUpdate) (d : String) :
    (mergeUpdate s { u with logs := some [] }).logs.length = s.logs.length ∧
    (mergeUpdate s { u with logs := none }).logs.length = s.logs.length ∧
    (mergeUpdate s { u with search_data := some d }).search_data = d ∧
    (mergeUpdate s { u with search_data := none }).search_data = s.search_data ∧
    (mergeUpdate s { u with final_report := none }).final_report = s.final_report ∧
    (mergeUpdate s u).topic = s.topic ∧
    (mergeUpdate s u).logs = s.logs ++ u.logs.getD [] := by
  refine ⟨?_, ?_, rfl, rfl, rfl, rfl, rfl⟩ <;> simp [mergeUpdate]

theorem append_ne_empty_of_left (s t : String) (h : 0 < s.length) : s ++ t ≠ "" := by
  intro he
  have hl := congrArg String.length he
  rw [String.length_append] at hl
  simp at hl
  omega

theorem llmFailedReport_ne_empty (e : String) : llmFailedReport e ≠ "" := by
  rw [llmFailedReport]
  exact append_ne_empty_of_left _ e (by decide)

/-- C4 counterexample: on a search-call failure the first log entry of the
research stage is the error log, not a start-of-search log — `log_start` is
overwritten before the update is built — and the second entry is still the
completion log, so the claimed order (start log, then completion or error
log) does not hold. -/
theorem c4_counterexample :
    (research_node (some (fun _ => Except.error timeoutMsg)) (initialState tqTopic)).logs
      = some [searchErrorLog timeoutMsg, researchDoneLog] ∧
    searchErrorLog timeoutMsg ≠ researchStartLog tqTopic ∧
    researchDoneLog ≠ researchStartLog tqTopic := by
  refine ⟨rfl, ?_, ?_⟩ <;> decide

/-- C4 amended: when the search capability is initialized the research stage
always returns exactly two log entries; on success they are the
start-of-search log then the completion log, while on failure the first entry
is the error log — which carries the provider message verbatim — and the
second entry is still the completion log. -/
theorem c4_amended (topic e : String) (rs : List SearchRecord) :
    (research_node (some (fun _ => Except.ok rs)) (initialState topic)).logs
      = some [researchStartLog topic, researchDoneLog] ∧
    (research_node (some (fun _ => Except.error e)) (initialState topic)).logs
      = some [searchErrorLog e, researchDoneLog] ∧
    searchErrorLog e = "⚠️ Search Error: " ++ e :=
  ⟨rfl, rfl, rfl⟩

/-- C1 counterexample: with both capabilities initialized and both calls
succeeding — the generation call returns empty text — the run emits four log
events and the done sentinel but no report event at all, refuting the claimed
"exactly one Report event" for every successful run. -/
theorem c1_counterexample :
    stream_events okSearchOracle emptyGenOracle tqTopic none
      = [TransportEvent.log (researchStartLog tqTopic), TransportEvent.log researchDoneLog,
         TransportEvent.log writerStartLog, TransportEvent.log writerDoneLog,
         TransportEvent.done] ∧
    (stream_events okSearchOracle emptyGenOracle tqTopic none).filter isReportEvent = [] := by
  exact ⟨rfl, rfl⟩

/-- C1 amended: for every topic, a run with both capabilities initialized
whose calls succeed and whose generation call returns non-empty text emits,
in order, at least one log event (four of them), then exactly one report
event, then exactly one done sentinel, and nothing after it. -/
theorem c1_amended (topic : String) (f : String → List SearchRecord) (g : String → String)
    (h : g (writer_prompt topic (pyJsonDumpsRecords (f topic))) ≠ "") :
    stream_events (some (fun t => Except.ok (f t))) (some (fun p => Except.ok (g p))) topic none
      = [TransportEvent.log (researchStartLog topic), TransportEvent.log researchDoneLog,
         TransportEvent.log writerStartLog, TransportEvent.log writerDoneLog,
         TransportEvent.report (g (writer_prompt topic (pyJsonDumpsRecords (f topic)))),
         TransportEvent.done] := by
  rw [stream_events_none]
  simp [research_node, writer_node, writer_nodeC, mergeUpdate, initialState,
    updateEvents_eq, reportEvents, h]

/-- C1 amended witness: the amended statement instantiated at the concrete
scenario inputs. -/
theorem c1_amended_witness :
    stream_events (some (fun t => Except.ok ((fun _ => [oneRecord]) t)))
        (some (fun p => Except.ok ((fun _ => repText) p))) tqTopic none
      = [TransportEvent.log (researchStartLog tqTopic), TransportEvent.log researchDoneLog,
         TransportEvent.log writerStartLog, TransportEvent.log writerDoneLog,
         TransportEvent.report repText, TransportEvent.done] :=
  c1_amended tqTopic (fun _ => [oneRecord]) (fun _ => repText) (by decide)

/-- C10 counterexample: with the generation handle initialized and the call
succeeding with empty text, the writer stage returns an empty `final_report`,
and the adapter emits only the two log events and no report event, refuting
the claimed non-empty report and report event in every outcome. -/
theorem c10_counterexample :
    writer_nodeC emptyGenOracle exampleState
      = ({ logs := some [writerStartLog, writerDoneLog], final_report := some "" }, 1) ∧
    updateEvents (writer_node emptyGenOracle exampleState)
      = [TransportEvent.log writerStartLog, TransportEvent.log writerDoneLog] := by
  exact ⟨rfl, rfl⟩

/-- C10 amended: whenever the generation handle is initialized the writer
stage invokes the capability exactly once and returns exactly two log entries
together with a `final_report` key; on a generation failure the report body
is the non-empty error string built from the failure detail, so the adapter
emits a report event on every failing generation run — only a successful
generation returning empty text yields no report event. -/
theorem c10_amended (state : AgentState) (g : String → String) (e : String) :
    writer_nodeC (some (fun p => Except.ok (g p))) state
      = ({ logs := some [writerStartLog, writerDoneLog]
           final_report := some (g (writer_prompt state.topic state.search_data)) }, 1) ∧
    writer_nodeC (some (fun _ => Except.error e)) state
      = ({ logs := some [writerStartLog, writerDoneLog]
           final_report := some (llmFailedReport e) }, 1) ∧
    llmFailedReport e ≠ "" ∧
    llmFailedReport e = "❌ LLM Call Failed: " ++ e ∧
    updateEvents (writer_node (some (fun _ => Except.error e)) state)
      = [TransportEvent.log writerStartLog, TransportEvent.log writerDoneLog,
         TransportEvent.report (llmFailedReport e)] := by
  refine ⟨rfl, rfl, llmFailedReport_ne_empty e, rfl, ?_⟩
  rw [updateEvents_eq]
  simp [writer_node, writer_nodeC, reportEvents, llmFailedReport_ne_empty e]

theorem chain_sleepAfterLog_logChunk (ls : List String) (rest : List StreamAct)
    (h1 : List.Chain' sleepAfterLog rest) (h2 : rest.head? ≠ some StreamAct.sleep) :
    List.Chain' sleepAfterLog (logChunk ls ++ rest) ∧
      (logChunk ls ++ rest).head? ≠ some StreamAct.sleep := by
  induction ls with
  | nil => simpa [logChunk] using ⟨h1, h2⟩
  | cons l ls ih =>
      obtain ⟨ihc, ihh⟩ := ih
      have hshape : logChunk (l :: ls) ++ rest
          = StreamAct.emit (TransportEvent.log l) :: StreamAct.sleep :: (logChunk ls ++ rest) := by
        simp [logChunk]
      rw [hshape]
      refine ⟨?_, by simp⟩
      rw [List.chain'_cons]
      refine ⟨fun _ => ⟨l, rfl⟩, ?_⟩
      rw [List.chain'_cons']
      refine ⟨fun b hb hbs => ?_, ihc⟩
      subst hbs
      exact absurd (Option.mem_def.mp hb) ihh

theorem chain_sleepAfterLog_reportActs (fr : Option String) (rest : List StreamAct)
    (h1 : List.Chain' sleepAfterLog rest) (h2 : rest.head? ≠ some StreamAct.sleep) :
    List.Chain' sleepAfterLog (reportActs fr ++ rest) ∧
      (reportActs fr ++ rest).head? ≠ some StreamAct.sleep := by
  rcases fr with _ | r
  · simpa [reportActs] using ⟨h1, h2⟩
  · by_cases hr : r ≠ ""
    · have hshape : reportActs (some r) ++ rest
          = StreamAct.emit (TransportEvent.report r) :: rest := by
        simp [reportActs, hr]
      rw [hshape]
      refine ⟨?_, by simp⟩
      rw [List.chain'_cons']
      refine ⟨fun b hb hbs => ?_, h1⟩
      subst hbs
      exact absurd (Option.mem_def.mp hb) h2
    · simpa [reportActs, hr] using ⟨h1, h2⟩

theorem chain_sleepAfterLog_updateActions (u : StageUpdate) (rest : List StreamAct)
    (h1 : List.Chain' sleepAfterLog rest) (h2 : rest.head? ≠ some StreamAct.sleep) :
    List.Chain' sleepAfterLog (updateActions u ++ rest) ∧
      (updateActions u ++ rest).head? ≠ some StreamAct.sleep := by
  have hrp := chain_sleepAfterLog_reportActs u.final_report rest h1 h2
  rcases hlo : u.logs with _ | ls
  · simpa [updateActions, logsActs, hlo] using hrp
  · have hshape : updateActions u ++ rest
        = logChunk ls ++ (reportActs u.final_report ++ rest) := by
      simp [updateActions, logsActs, hlo]
    rw [hshape]
    exact chain_sleepAfterLog_logChunk ls _ hrp.1 hrp.2

theorem chain_sleepAfterLog_flatMap (ups : List (String × StageUpdate)) (rest : List StreamAct)
    (h1 : List.Chain' sleepAfterLog rest) (h2 : rest.head? ≠ some StreamAct.sleep) :
    List.Chain' sleepAfterLog (ups.flatMap (fun kv => updateActions kv.2) ++ rest) ∧
      (ups.flatMap (fun kv => updateActions kv.2) ++ rest).head? ≠ some StreamAct.sleep := by
  induction ups with
  | nil => simpa using ⟨h1, h2⟩
  | cons p ups ih =>
      rw [List.flatMap_cons, List.append_assoc]
      exact chain_sleepAfterLog_updateActions p.2 _ ih.1 ih.2

theorem chain_sleepAfterLog_generator (st : Option (String → Except String (List SearchRecord)))
    (llm : Option (String → Except String String)) (topic : String)
    (fault : Option (Nat × String)) :
    List.Chain' sleepAfterLog (event_generator st llm topic fault) ∧
      (event_generator st llm topic fault).head? ≠ some StreamAct.sleep := by
  cases fault with
  | none =>
      exact chain_sleepAfterLog_flatMap _ _ (List.chain'_singleton _) (by simp)
  | some fe =>
      have htail : List.Chain' sleepAfterLog
          [StreamAct.emit (TransportEvent.log (sysErrorLog fe.2)), StreamAct.emit TransportEvent.done] := by
        rw [List.chain'_cons]
        exact ⟨fun h => StreamAct.noConfusion h, List.chain'_singleton _⟩
      exact chain_sleepAfterLog_flatMap _ _ htail (by simp)

theorem chain_logThenSleep_logChunk (ls : List String) (rest : List StreamAct)
    (h1 : List.Chain' logThenSleep rest) :
    List.Chain' logThenSleep (logChunk ls ++ rest) := by
  induction ls with
  | nil => simpa [logChunk] using h1
  | cons l ls ih =>
      have hshape : logChunk (l :: ls) ++ rest
          = StreamAct.emit (TransportEvent.log l) :: StreamAct.sleep :: (logChunk ls ++ rest) := by
        simp [logChunk]
      rw [hshape, List.chain'_cons, List.chain'_cons']
      refine ⟨fun _ => rfl, fun b hb h => ?_, ih⟩
      obtain ⟨c, hc⟩ := h
      exact StreamAct.noConfusion hc

theorem chain_logThenSleep_reportActs_done (fr : Option String) :
    List.Chain' logThenSleep (reportActs fr ++ [StreamAct.emit TransportEvent.done]) := by
  rcases fr with _ | r
  · simp [reportActs]
  · by_cases hr : r ≠ ""
    · have hshape : reportActs (some r) ++ [StreamAct.emit TransportEvent.done]
          = [StreamAct.emit (TransportEvent.report r), StreamAct.emit TransportEvent.done] := by
        simp [reportActs, hr]
      rw [hshape, List.chain'_cons]
      refine ⟨fun h => ?_, List.chain'_singleton _⟩
      obtain ⟨c, hc⟩ := h
      obtain hc2 := StreamAct.emit.inj hc
      exact TransportEvent.noConfusion hc2
    · simp [reportActs, hr]

/-- C5 counterexample: in a fully successful concrete run the generator
pauses after every log emission, including the last log of the writer update,
so the action immediately preceding the report emission (positions 7 and 8 of
the trace) is the pacing pause — refuting "no delay occurs before the Report
event". -/
theorem c5_counterexample :
    event_generator okSearchOracle okGenOracle tqTopic none
      = [StreamAct.emit (TransportEvent.log (researchStartLog tqTopic)), StreamAct.sleep,
         StreamAct.emit (TransportEvent.log researchDoneLog), StreamAct.sleep,
         StreamAct.emit (TransportEvent.log writerStartLog), StreamAct.sleep,
         StreamAct.emit (TransportEvent.log writerDoneLog), StreamAct.sleep,
         StreamAct.emit (TransportEvent.report repText), StreamAct.emit TransportEvent.done] ∧
    (event_generator okSearchOracle okGenOracle tqTopic none)[7]? = some StreamAct.sleep ∧
    (event_generator okSearchOracle okGenOracle tqTopic none)[8]?
      = some (StreamAct.emit (TransportEvent.report repText)) := by
  refine ⟨?_, ?_, ?_⟩ <;> rfl

/-- C5 amended: the pacing pause is inserted immediately after every log
emission of a stage update — including the last one, so a pause does precede
a report event that follows logs — and only there: every pause in the full
trace directly follows a log emission, so no pause follows the report
emission or the orchestration fault log and no trace begins with a pause. -/
theorem c5_amended (st : Option (String → Except String (List SearchRecord)))
    (llm : Option (String → Except String String)) (topic : String)
    (fault : Option (Nat × String)) (u : StageUpdate) :
    List.Chain' sleepAfterLog (event_generator st llm topic fault) ∧
    (event_generator st llm topic fault).head? ≠ some StreamAct.sleep ∧
    List.Chain' logThenSleep (updateActions u ++ [StreamAct.emit TransportEvent.done]) := by
  obtain ⟨h1, h2⟩ := chain_sleepAfterLog_generator st llm topic fault
  refine ⟨h1, h2, ?_⟩
  rcases hlo : u.logs with _ | ls
  · simpa [updateActions, logsActs, hlo] using chain_logThenSleep_reportActs_done u.final_report
  · have hshape : updateActions u ++ [StreamAct.emit TransportEvent.done]
        = logChunk ls ++ (reportActs u.final_report ++ [StreamAct.emit TransportEvent.done]) := by
      simp [updateActions, logsActs, hlo]
    rw [hshape]
    exact chain_logThenSleep_logChunk ls _ (chain_logThenSleep_reportActs_done u.final_report)

/-- C9: an orchestration fault after any number of streamed updates surfaces
as exactly one log event carrying the stringified error, followed immediately
by the done sentinel which ends the stream, while a fault-free run always
streams both stage updates in full before the sentinel — so the fault path is
the only one that shortens the two-stage sequence. -/
theorem c9_pipeline_fault (st : Option (String → Except String (List SearchRecord)))
    (llm : Option (String → Except String String)) (topic e : String) (k : Nat) :
    (∃ pre, stream_events st llm topic (some (k, e))
        = pre ++ [TransportEvent.log (sysErrorLog e), TransportEvent.done] ∧
      TransportEvent.done ∉ pre) ∧
    sysErrorLog e = "System Error: " ++ e ∧
    stream_events st llm topic none
      = updateEvents (research_node st (initialState topic)) ++
        updateEvents (writer_node llm (mergeUpdate (initialState topic)
          (research_node st (initialState topic)))) ++
        [TransportEvent.done] := by
  refine ⟨⟨_, stream_events_fault st llm topic e k, ?_⟩, rfl, stream_events_none st llm topic⟩
  intro hmem
  rcases List.mem_flatMap.mp hmem with ⟨kv, _, hin⟩
  exact done_not_mem_updateEvents kv.2 hin

/-- C9 witness: the fault statement instantiated at a concrete run. -/
theorem c9_pipeline_fault_witness :
    (∃ pre, stream_events okSearchOracle okGenOracle tqTopic (some (1, timeoutMsg))
        = pre ++ [TransportEvent.log (sysErrorLog timeoutMsg), TransportEvent.done] ∧
      TransportEvent.done ∉ pre) ∧
    sysErrorLog timeoutMsg = "System Error: " ++ timeoutMsg ∧
    stream_events okSearchOracle okGenOracle tqTopic none
      = updateEvents (research_node okSearchOracle (initialState tqTopic)) ++
        updateEvents (writer_node okGenOracle (mergeUpdate (initialState tqTopic)
          (research_node okSearchOracle (initialState tqTopic)))) ++
        [TransportEvent.done] :=
  c9_pipeline_fault okSearchOracle okGenOracle tqTopic timeoutMsg 1

/-- C2: for every topic, capability outcome (available or not, failing or
not) and orchestration outcome, the stream is a sequence of log and report
events each rendered as one line `data: <JSON>\n\n` whose payload has shape
type log/report plus string content, terminated by exactly one final literal
line `data: [DONE]\n\n` with nothing after it. -/
theorem c2_wire_format (st : Option (String → Except String (List SearchRecord)))
    (llm : Option (String → Except String String)) (topic : String)
    (fault : Option (Nat × String)) :
    ∃ evs, stream_events st llm topic fault = evs ++ [TransportEvent.done] ∧
      TransportEvent.done ∉ evs ∧
      (∀ ev ∈ evs, ∃ c, ev = TransportEvent.log c ∨ ev = TransportEvent.report c) ∧
      stream_wire st llm topic fault = evs.map renderEvent ++ [doneLine] ∧
      (∀ c, renderEvent (TransportEvent.log c) = dataMark ++ eventPayload typeLog c ++ lineEnd) ∧
      (∀ c, renderEvent (TransportEvent.report c) = dataMark ++ eventPayload typeReport c ++ lineEnd) ∧
      renderEvent TransportEvent.done = doneLine := by
  have hshape : ∀ (kv : String × StageUpdate) (ev : TransportEvent),
      ev ∈ updateEvents kv.2 → ∃ c, ev = TransportEvent.log c ∨ ev = TransportEvent.report c := by
    intro kv ev hev
    rcases mem_updateEvents_shape kv.2 ev hev with ⟨c, hc⟩ | ⟨c, hc⟩
    · exact ⟨c, Or.inl hc⟩
    · exact ⟨c, Or.inr hc⟩
  cases fault with
  | none =>
      refine ⟨updateEvents (research_node st (initialState topic)) ++
          updateEvents (writer_node llm (mergeUpdate (initialState topic)
            (research_node st (initialState topic)))),
        stream_events_none st llm topic, ?_, ?_, ?_, fun c => rfl, fun c => rfl, rfl⟩
      · intro hmem
        rcases List.mem_append.mp hmem with h | h
        · exact done_not_mem_updateEvents _ h
        · exact done_not_mem_updateEvents _ h
      · intro ev hev
        rcases List.mem_append.mp hev with h | h
        · exact hshape (researcherKey, _) ev h
        · exact hshape (writerKey, _) ev h
      · rw [stream_wire, stream_events_none, List.map_append]
        rfl
  | some fe =>
      obtain ⟨k, e⟩ := fe
      refine ⟨((pipeline st llm (initialState topic)).take k).flatMap (fun kv => updateEvents kv.2) ++
          [TransportEvent.log (sysErrorLog e)], ?_, ?_, ?_, ?_, fun c => rfl, fun c => rfl, rfl⟩
      · rw [stream_events_fault, List.append_assoc]
        rfl
      · intro hmem
        rcases List.mem_append.mp hmem with h | h
        · rcases List.mem_flatMap.mp h with ⟨kv, _, hin⟩
          exact done_not_mem_updateEvents kv.2 hin
        · rcases List.mem_singleton.mp h with h2
          exact TransportEvent.noConfusion h2
      · intro ev hev
        rcases List.mem_append.mp hev with h | h
        · rcases List.mem_flatMap.mp h with ⟨kv, _, hin⟩
          exact hshape kv ev hin
        · exact ⟨sysErrorLog e, Or.inl (List.mem_singleton.mp h)⟩
      · rw [stream_wire, stream_events_fault]
        simp [renderEvent]

/-- C2 witness: the wire format statement instantiated at a concrete run. -/
theorem c2_wire_format_witness :
    ∃ evs, stream_events okSearchOracle okGenOracle tqTopic none = evs ++ [TransportEvent.done] ∧
      TransportEvent.done ∉ evs ∧
      (∀ ev ∈ evs, ∃ c, ev = TransportEvent.log c ∨ ev = TransportEvent.report c) ∧
      stream_wire okSearchOracle okGenOracle tqTopic none = evs.map renderEvent ++ [doneLine] ∧
      (∀ c, renderEvent (TransportEvent.log c) = dataMark ++ eventPayload typeLog c ++ lineEnd) ∧
      (∀ c, renderEvent (TransportEvent.report c) = dataMark ++ eventPayload typeReport c ++ lineEnd) ∧
      renderEvent TransportEvent.done = doneLine :=
  c2_wire_format okSearchOracle okGenOracle tqTopic none

/-- C3 witness: the isolation statement instantiated at the concrete timeout
scenario. -/
theorem c3_witness :
    (research_node (some (fun _ => Except.error timeoutMsg)) (initialState tqTopic)).search_data
        = some (searchFailedData timeoutMsg) ∧
    searchFailedData timeoutMsg = "Search Failed: " ++ timeoutMsg ∧
    (mergeUpdate (initialState tqTopic) (research_node (some (fun _ => Except.error timeoutMsg)) (initialState tqTopic))).search_data
        = searchFailedData timeoutMsg ∧
    pipeline (some (fun _ => Except.error timeoutMsg)) okGenOracle (initialState tqTopic)
        = [(researcherKey, research_node (some (fun _ => Except.error timeoutMsg)) (initialState tqTopic)),
           (writerKey, writer_node okGenOracle (mergeUpdate (initialState tqTopic)
              (research_node (some (fun _ => Except.error timeoutMsg)) (initialState tqTopic))))] ∧
    writer_nodeC (some (fun p => Except.ok ((fun q => q) p)))
        (mergeUpdate (initialState tqTopic) (research_node (some (fun _ => Except.error timeoutMsg)) (initialState tqTopic)))
        = ({ logs := some [writerStartLog, writerDoneLog]
             final_report := some ((fun q => q) (writer_prompt tqTopic (searchFailedData timeoutMsg))) }, 1) :=
  c3_search_failure_isolated tqTopic timeoutMsg okGenOracle (fun q => q)

/-- C4 amended witness: the amended statement instantiated at the concrete
scenario inputs. -/
theorem c4_amended_witness :
    (research_node (some (fun _ => Except.ok [oneRecord])) (initialState tqTopic)).logs
      = some [researchStartLog tqTopic, researchDoneLog] ∧
    (research_node (some (fun _ => Except.error timeoutMsg)) (initialState tqTopic)).logs
      = some [searchErrorLog timeoutMsg, researchDoneLog] ∧
    searchErrorLog timeoutMsg = "⚠️ Search Error: " ++ timeoutMsg :=
  c4_amended tqTopic timeoutMsg [oneRecord]

/-- C5 amended witness: the pacing statement instantiated at a concrete run
and a concrete update. -/
theorem c5_amended_witness :
    List.Chain' sleepAfterLog (event_generator okSearchOracle okGenOracle tqTopic none) ∧
    (event_generator okSearchOracle okGenOracle tqTopic none).head? ≠ some StreamAct.sleep ∧
    List.Chain' logThenSleep (updateActions (research_node okSearchOracle exampleState)
      ++ [StreamAct.emit TransportEvent.done]) :=
  c5_amended okSearchOracle okGenOracle tqTopic none (research_node okSearchOracle exampleState)

/-- C6 witness: the unavailable-search statement instantiated at the concrete
scenario inputs. -/
theorem c6_witness :
    research_node none (initialState tqTopic)
        = { logs := some [searchUnavailableLog]
            search_data := some searchUnavailableSentinel } ∧
    (pipeline none okGenOracle (initialState tqTopic)).map Prod.fst = [researcherKey, writerKey] ∧
    ∃ pre, event_generator none okGenOracle tqTopic none = pre ++ [StreamAct.emit TransportEvent.done] :=
  c6_search_unavailable tqTopic okGenOracle

/-- C7 witness: the unavailable-LLM statement instantiated at a concrete
state. -/
theorem c7_witness :
    writer_nodeC none exampleState
        = ({ logs := some [writerFatalLog], final_report := some misconfigReport }, 0) :=
  c7_llm_unavailable exampleState

/-- C8 witness: the merge statement instantiated at a concrete state and
update. -/
theorem c8_witness :
    (mergeUpdate exampleState { research_node okSearchOracle exampleState with logs := some [] }).logs.length
        = exampleState.logs.length ∧
    (mergeUpdate exampleState { research_node okSearchOracle exampleState with logs := none }).logs.length
        = exampleState.logs.length ∧
    (mergeUpdate exampleState { research_node okSearchOracle exampleState with search_data := some timeoutMsg }).search_data
        = timeoutMsg ∧
    (mergeUpdate exampleState { research_node okSearchOracle exampleState with search_data := none }).search_data
        = exampleState.search_data ∧
    (mergeUpdate exampleState { research_node okSearchOracle exampleState with final_report := none }).final_report
        = exampleState.final_report ∧
    (mergeUpdate exampleState (research_node okSearchOracle exampleState)).topic = exampleState.topic ∧
    (mergeUpdate exampleState (research_node okSearchOracle exampleState)).logs
        = exampleState.logs ++ (research_node okSearchOracle exampleState).logs.getD [] :=
  c8_merge_semantics exampleState (research_node okSearchOracle exampleState) timeoutMsg

/-- C10 amended witness: the amended statement instantiated at the concrete
scenario inputs. -/
theorem c10_amended_witness :
    writer_nodeC (some (fun p => Except.ok ((fun q => q) p))) exampleState
      = ({ logs := some [writerStartLog, writerDoneLog]
           final_report := some ((fun q => q) (writer_prompt exampleState.topic exampleState.search_data)) }, 1) ∧
    writer_nodeC (some (fun _ => Except.error timeoutMsg)) exampleState
      = ({ logs := some [writerStartLog, writerDoneLog]
           final_report := some (llmFailedReport timeoutMsg) }, 1) ∧
    llmFailedReport timeoutMsg ≠ "" ∧
    llmFailedReport timeoutMsg = "❌ LLM Call Failed: " ++ timeoutMsg ∧
    updateEvents (writer_node (some (fun _ => Except.error timeoutMsg)) exampleState)
      = [TransportEvent.log writerStartLog, TransportEvent.log writerDoneLog,
         TransportEvent.report (llmFailedReport timeoutMsg)] :=
  c10_amended exampleState (fun q => q) timeoutMsg
